import Mathlib

/-! Verification of the polyfile parsing-and-interpretation pipeline of
plain-model-inspector (`plain_model_inspector/io/polyfile.py`).

The development shallowly embeds the semantic layer of the pipeline: the
diagnostic model (`ParseMsg`), the domain objects (`DescriptionHeader`,
`Metadata`, `Point`, `PolyObject`), the literal transformer
(`PolyFileLiteralTransformer`), and the stateful tree interpreter
(`PolyFileInterpreter`).  Parse trees are modelled by the `Node` type:
interior rule nodes carry a grammar-rule label and a child list, and
leaves carry either a raw token or one of the values the literal
transformer substitutes for tokens (a `TokenData`, a `ParseMsg`, or a
`CommentLine`).

Python's dynamic failure modes (attribute errors from reading `.token`
or `.data` on an object that lacks the field, index errors from
out-of-range subscripts, unpacking errors) are modelled by an `Except`
monad over the `RErr` error type.  The interpreter object's fields
(`_has_z_value`, `_min_n_columns`, `_expected_n_columns`) are modelled
by the `InterpState` structure, threaded explicitly through every visit
so that (absence of) mutation is visible in the embedding.
-/

deriving instance DecidableEq for Except

namespace PlainModelInspector

/-- Severity levels of parse messages (source: `ParseErrorLevel`). -/
inductive ParseErrorLevel where
  | FATAL
  | ERROR
  | WARNING
  | INFO
deriving Repr, DecidableEq

/-- A lexer token with its source span.  Lark tokens are 1-based; the
`end_line`/`end_column` fields hold the position after the last
character, exactly as the source reads them via `.line`, `.column`,
`.end_line`, `.end_column`. -/
structure Token where
  line : Int
  column : Int
  end_line : Int
  end_column : Int
  text : String
deriving Repr, DecidableEq

/-- Diagnostic message (source: `ParseMsg`). -/
structure ParseMsg where
  level : ParseErrorLevel
  line : Int × Int
  column : Int × Int
  reason : String
deriving Repr, DecidableEq

/-- Source: `CommentLine`. -/
structure CommentLine where
  content : String
deriving Repr, DecidableEq

/-- Source: `DescriptionHeader`. -/
structure DescriptionHeader where
  content : String
deriving Repr, DecidableEq

/-- Source: `Metadata`. -/
structure Metadata where
  name : String
  n_rows : Int
  n_columns : Int
deriving Repr, DecidableEq

/-- Source: `Point`.  The Python `float` values are only ever moved
around by the interpreter (never computed with), so they are modelled
by `Rat`. -/
structure Point where
  x : Rat
  y : Rat
  z : Option Rat
  data : List Rat
deriving Repr, DecidableEq

/-- Source: `PolyObject`. -/
structure PolyObject where
  description : Option DescriptionHeader
  metadata : Metadata
  points : List Point
deriving Repr, DecidableEq

/-- The dynamic value stored in a `TokenData.data` field (`Any` in the
source): an `int`, a `float`, or a `str`, depending on which
transformer callback created it. -/
inductive LitData where
  | intD (i : Int)
  | floatD (q : Rat)
  | strD (s : String)
deriving Repr, DecidableEq

/-- Source: `TokenData` (a token paired with its parsed value). -/
structure TokenData where
  token : Token
  data : LitData
deriving Repr, DecidableEq

/-- The closed set of grammar-rule labels that can appear as `tree.data`
on an interior node of a polyfile parse tree (`polyfile_grammar`; the
inlined rules `comment_line` and `point_line` never appear as nodes). -/
inductive Rule where
  | description_header
  | name_line
  | metadata
  | dimensions_line
  | dimensions_valid
  | dimensions_missing_column
  | dimensions_exceeding_columns
  | point
  | point_invalid
  | points
  | poly_block
  | invalid_block
  | poly_file
deriving Repr, DecidableEq

/-- A transformed parse-tree node.  `token` holds terminals the literal
transformer leaves untouched (e.g. `INVALID_BLOCK`); `tokenData`,
`parseMsg` and `commentLine` hold the values the transformer substitutes
for `NAME`/`INT`/`FLOAT`, `WS`/`EMPTY_LINES`, and `COMMENT` tokens. -/
inductive Node where
  | tree (rule : Rule) (children : List Node)
  | token (t : Token)
  | tokenData (td : TokenData)
  | parseMsg (m : ParseMsg)
  | commentLine (c : CommentLine)
deriving Repr

/-- Dynamic runtime failures of the Python code: reading a missing
attribute, an out-of-range subscript, a type mismatch on a dynamically
typed value, or a failed tuple unpacking. -/
inductive RErr where
  | attributeError
  | typeError
  | indexError
  | valueError
deriving Repr, DecidableEq

/-- `isinstance(x, ParseMsg)` on a child value. -/
def Node.isParseMsg : Node → Bool
  | .parseMsg _ => true
  | _ => false

/-- Extract the `ParseMsg` of a child value when it is one. -/
def Node.parseMsgOf : Node → Option ParseMsg
  | .parseMsg m => some m
  | _ => none

/-- Reading the `.token` attribute of a child value: only a `TokenData`
has it; in particular a `ParseMsg` does not (pydantic raises
`AttributeError`). -/
def Node.tokenAttr : Node → Except RErr Token
  | .tokenData td => .ok td.token
  | _ => .error .attributeError

/-- Reading the `.data` attribute of a child value: only a `TokenData`
has it. -/
def Node.dataAttr : Node → Except RErr LitData
  | .tokenData td => .ok td.data
  | _ => .error .attributeError

/-- Reading `.data` and using it as an `int` (the only shape the
grammar ever produces at the call sites). -/
def Node.dataInt (n : Node) : Except RErr Int := do
  match ← n.dataAttr with
  | .intD i => .ok i
  | _ => .error .typeError

/-- Reading `.data` and using it as a `float` (the only shape the
grammar ever produces at the call sites). -/
def Node.dataFloat (n : Node) : Except RErr Rat := do
  match ← n.dataAttr with
  | .floatD q => .ok q
  | _ => .error .typeError

/-- Reading the `.content` attribute of a child value: only a
`CommentLine` has it. -/
def Node.contentAttr : Node → Except RErr String
  | .commentLine c => .ok c.content
  | _ => .error .attributeError

/-- Reading the `.line`/`.column` span attributes directly off a child
value: only a raw lark `Token` has them (used by `invalid_block`, whose
children are untransformed tokens). -/
def Node.rawToken : Node → Except RErr Token
  | .token t => .ok t
  | _ => .error .attributeError

/-- The grammar-rule label of a node, when it is an interior node. -/
def Node.ruleOf : Node → Option Rule
  | .tree r _ => some r
  | _ => none

/-- Source: `_message_from_tokens`.  The Python helper receives a
nonempty token sequence and reads `tokens[0]` and `tokens[-1]`; the
embedding receives those two tokens directly (every call site passes an
explicitly nonempty sequence, or extracts first/last itself). -/
def message_from_tokens (first last : Token) (level : ParseErrorLevel) (reason : String) : ParseMsg :=
  { level := level
    line := (first.line, last.end_line)
    column := (first.column, last.end_column)
    reason := reason }

/-- Python's `str.rstrip()`: drop trailing whitespace characters. -/
def rstrip (s : String) : String :=
  ⟨(s.data.reverse.dropWhile Char.isWhitespace).reverse⟩

namespace PolyFileLiteralTransformer

/-- Source: `PolyFileLiteralTransformer.COMMENT`: strip the leading `*`
(`token[1:]`) and trailing whitespace (`.rstrip()`); comments are never
erroneous. -/
def COMMENT (token : Token) : CommentLine :=
  ⟨rstrip (token.text.drop 1)⟩

/-- Source: `PolyFileLiteralTransformer.EMPTY_LINES`: runs of blank
lines always become a WARNING. -/
def EMPTY_LINES (token : Token) : ParseMsg :=
  message_from_tokens token token .WARNING "Unexpected empty lines will be ignored."

/-- Source: `PolyFileLiteralTransformer.WS`: non-ignored whitespace
always becomes a WARNING. -/
def WS (token : Token) : ParseMsg :=
  message_from_tokens token token .WARNING "Unexpected empty whitespace will be ignored."

/-- Source: `PolyFileLiteralTransformer.NAME`: `str(token)` is the
token text. -/
def NAME (token : Token) : TokenData :=
  ⟨token, .strD token.text⟩

end PolyFileLiteralTransformer

/-- The interpreter's fields, set in `PolyFileInterpreter.__init__` and
threaded through every visit. -/
structure InterpState where
  has_z_value : Bool
  min_n_columns : Int
  expected_n_columns : Int
deriving Repr, DecidableEq

namespace PolyFileInterpreter

/-- Source: `PolyFileInterpreter.__init__`. -/
def init (has_z_value : Bool) : InterpState :=
  let m : Int := if has_z_value = false then 2 else 3
  { has_z_value := has_z_value, min_n_columns := m, expected_n_columns := m }

/-- The external override of `_expected_n_columns` performed by callers
after reading a block's metadata (e.g. the test
`test_point_line_is_parsed_correctly`). -/
def set_expected_n_columns (st : InterpState) (n : Int) : InterpState :=
  { st with expected_n_columns := n }

/-- Source: `PolyFileInterpreter._filter_msgs`: split a child list into
the non-`ParseMsg` elements and the `ParseMsg` elements, both in
order. -/
def filter_msgs (input : List Node) : List Node × List ParseMsg :=
  (input.filter (fun x => !x.isParseMsg), input.filterMap Node.parseMsgOf)

/-- Source: `PolyFileInterpreter.description_header`. -/
def description_header (st : InterpState) (children : List Node) :
    Except RErr ((DescriptionHeader × List ParseMsg) × InterpState) := do
  let (comments, msgs) := filter_msgs children
  let contents ← comments.mapM Node.contentAttr
  .ok ((⟨String.intercalate "\n" contents⟩, msgs), st)

/-- Source: `PolyFileInterpreter.name_line`: return `elems[0].data`
(grammar: the first non-message element is the `NAME` token's
`TokenData`, whose `data` is a string) together with the filtered
messages. -/
def name_line (st : InterpState) (children : List Node) :
    Except RErr ((String × List ParseMsg) × InterpState) := do
  let (elems, msgs) := filter_msgs children
  match elems with
  | e :: _ => do
      match ← e.dataAttr with
      | .strD s => .ok ((s, msgs), st)
      | _ => .error .typeError
  | [] => .error .indexError

/-- Source: `PolyFileInterpreter.dimensions_valid`: two integers; an
ERROR when the declared column count is below the minimum. -/
def dimensions_valid (st : InterpState) (children : List Node) :
    Except RErr (((Int × Int) × List ParseMsg) × InterpState) := do
  match children with
  | c0 :: c1 :: _ => do
      let n_rows ← c0.dataInt
      let n_columns ← c1.dataInt
      if n_columns < st.min_n_columns then do
        let t1 ← c1.tokenAttr
        .ok (((n_rows, n_columns),
              [message_from_tokens t1 t1 .ERROR
                "The number of specified columns is smaller than the minimum expected number."]), st)
      else
        .ok (((n_rows, n_columns), []), st)
  | _ => .error .indexError

/-- Source: `PolyFileInterpreter.dimensions_missing_column`: one
integer; `(n_rows, -1)` plus a single ERROR. -/
def dimensions_missing_column (st : InterpState) (children : List Node) :
    Except RErr (((Int × Int) × List ParseMsg) × InterpState) := do
  match children with
  | c0 :: _ => do
      let t0 ← c0.tokenAttr
      let msgs := [message_from_tokens t0 t0 .ERROR
        "Only one dimension is specified, the number of columns will not be validated"]
      let n_rows ← c0.dataInt
      .ok (((n_rows, -1), msgs), st)
  | [] => .error .indexError

/-- Dispatch of `self.visit(tree.children[0])` inside
`dimensions_exceeding_columns`: by the grammar the first child of a
`dimensions_exceeding_columns` node is a `dimensions_valid` node (a
`dimensions_missing_column` node is included for completeness of the
dispatch; no other rule can occur there). -/
def visit_dimensions_first_child (st : InterpState) : Node → Except RErr (((Int × Int) × List ParseMsg) × InterpState)
  | .tree .dimensions_valid cs => dimensions_valid st cs
  | .tree .dimensions_missing_column cs => dimensions_missing_column st cs
  | _ => .error .typeError

/-- Source: `PolyFileInterpreter.dimensions_exceeding_columns`: visit
the valid two-integer prefix, then append one WARNING referencing
`tree.children[1]` (the first excess integer). -/
def dimensions_exceeding_columns (st : InterpState) (children : List Node) :
    Except RErr (((Int × Int) × List ParseMsg) × InterpState) := do
  match children with
  | c0 :: c1 :: _ => do
      let ((result, msgs), st1) ← visit_dimensions_first_child st c0
      let t1 ← c1.tokenAttr
      .ok ((result, msgs ++ [message_from_tokens t1 t1 .WARNING
            "Too many columns specified, the excess columns will be ignored."]), st1)
  | _ => .error .indexError

/-- Dispatch of `self.visit(tree.children[-1])` inside
`dimensions_line`: the last child is one of the three dimensions
rules. -/
def visit_dimensions (st : InterpState) : Node → Except RErr (((Int × Int) × List ParseMsg) × InterpState)
  | .tree .dimensions_valid cs => dimensions_valid st cs
  | .tree .dimensions_missing_column cs => dimensions_missing_column st cs
  | .tree .dimensions_exceeding_columns cs => dimensions_exceeding_columns st cs
  | _ => .error .typeError

/-- Source: `PolyFileInterpreter.dimensions_line`: visit the last
child; when more than one child exists the first one is the leading
whitespace, and the code reads `tree.children[0].token` to build a
WARNING — but the literal transformer has already replaced the `WS`
token by a `ParseMsg`, which has no `token` attribute. -/
def dimensions_line (st : InterpState) (children : List Node) :
    Except RErr (((Int × Int) × List ParseMsg) × InterpState) := do
  match children.getLast? with
  | some clast => do
      let ((result, msgs), st1) ← visit_dimensions st clast
      if children.length > 1 then do
        match children.head? with
        | some c0 => do
            let t0 ← c0.tokenAttr
            .ok ((result, msgs ++ [message_from_tokens t0 t0 .WARNING
                  "Whitespace at the beginning of the dimensions is ignored."]), st1)
        | none => .error .indexError
      else
        .ok ((result, msgs), st1)
  | none => .error .indexError

/-- Source: `PolyFileInterpreter.point`: gather the float values of the
children; one ERROR when there are fewer values than expected, one
ERROR when there are more; the point is constructed from the values in
both cases.  `z` is set only when z-values are configured and at least
three values exist; `data` is the slice beyond the minimum column count
(`_min_n_columns` is 2 or 3 by construction, so the Python slice is a
plain drop). -/
def point (st : InterpState) (children : List Node) :
    Except RErr ((Option Point × List ParseMsg) × InterpState) := do
  let values ← children.mapM Node.dataFloat
  let n_values : Int := values.length
  let msgs ←
    if n_values < st.expected_n_columns then do
      match children.head?, children.getLast? with
      | some c0, some cl => do
          let t0 ← c0.tokenAttr
          let tl ← cl.tokenAttr
          pure [message_from_tokens t0 tl .ERROR
            "Not as many columns provided as specified, the created point will be missing data."]
      | _, _ => .error .indexError
    else if n_values > st.expected_n_columns then do
      match children.head?, children.getLast? with
      | some c0, some cl => do
          let t0 ← c0.tokenAttr
          let tl ← cl.tokenAttr
          pure [message_from_tokens t0 tl .ERROR
            "Too many columns provided as specified, the created point will contain too much data."]
      | _, _ => .error .indexError
    else
      pure ([] : List ParseMsg)
  let z_value : Option Rat :=
    if st.has_z_value = true ∧ (3 : Int) ≤ n_values then values[2]? else none
  let data := values.drop st.min_n_columns.toNat
  match values with
  | v0 :: v1 :: _ => .ok ((some ⟨v0, v1, z_value, data⟩, msgs), st)
  | _ => .error .indexError

/-- Source: `PolyFileInterpreter.point_invalid`: no point, a single
ERROR referencing the lone value. -/
def point_invalid (st : InterpState) (children : List Node) :
    Except RErr ((Option Point × List ParseMsg) × InterpState) := do
  match children with
  | c0 :: _ => do
      let t0 ← c0.tokenAttr
      .ok ((none, [message_from_tokens t0 t0 .ERROR
            "No point can be constructed from only a single value, row will be skipped"]), st)
  | [] => .error .indexError

/-- Dispatch of `self.visit(e)` inside the `points` loop: each element
is a `point` or `point_invalid` node. -/
def visit_point_line (st : InterpState) : Node → Except RErr ((Option Point × List ParseMsg) × InterpState)
  | .tree .point cs => point st cs
  | .tree .point_invalid cs => point_invalid st cs
  | _ => .error .typeError

/-- The `for e in elems` loop of `PolyFileInterpreter.points`: visit
each row, keep the constructed points (`if point:` — a pydantic model is
always truthy, so this keeps exactly the non-`None` results) and
concatenate the row messages in order. -/
def points_loop (st : InterpState) : List Node → Except RErr ((List Point × List ParseMsg) × InterpState)
  | [] => .ok (([], []), st)
  | e :: rest => do
      let ((pt, point_msgs), st1) ← visit_point_line st e
      let ((pts, msgs), st2) ← points_loop st1 rest
      .ok ((pt.toList ++ pts, point_msgs ++ msgs), st2)

/-- Source: `PolyFileInterpreter.points`: the filtered `ParseMsg`
children (the blank-line warnings) come first, then the per-row
messages are extended onto them in row order. -/
def points (st : InterpState) (children : List Node) :
    Except RErr ((List Point × List ParseMsg) × InterpState) := do
  let (elems, msgs) := filter_msgs children
  let ((pts, row_msgs), st1) ← points_loop st elems
  .ok ((pts, msgs ++ row_msgs), st1)

/-- Dispatch of `self.visit(elems[0])` inside `metadata`: the first
non-message element is a `name_line` node. -/
def visit_name_line (st : InterpState) : Node → Except RErr ((String × List ParseMsg) × InterpState)
  | .tree .name_line cs => name_line st cs
  | _ => .error .typeError

/-- Dispatch of `self.visit(elems[1])` inside `metadata`: the second
non-message element is a `dimensions_line` node. -/
def visit_dimensions_line (st : InterpState) : Node → Except RErr (((Int × Int) × List ParseMsg) × InterpState)
  | .tree .dimensions_line cs => dimensions_line st cs
  | _ => .error .typeError

/-- Source: `PolyFileInterpreter.metadata`: the filtered `ParseMsg`
children come first, then the name-line messages, then the
dimensions-line messages. -/
def metadata (st : InterpState) (children : List Node) :
    Except RErr ((Metadata × List ParseMsg) × InterpState) := do
  let (elems, msgs) := filter_msgs children
  match elems with
  | e0 :: e1 :: _ => do
      let ((name, name_msgs), st1) ← visit_name_line st e0
      let (((n_rows, n_columns), dimensions_msgs), st2) ← visit_dimensions_line st1 e1
      .ok ((⟨name, n_rows, n_columns⟩, msgs ++ name_msgs ++ dimensions_msgs), st2)
  | _ => .error .indexError

/-- Dispatch of `self.visit(e)` on a `poly_block` child. -/
def visit_description_header (st : InterpState) : Node → Except RErr ((DescriptionHeader × List ParseMsg) × InterpState)
  | .tree .description_header cs => description_header st cs
  | _ => .error .typeError

/-- Dispatch of `self.visit(e)` on a `poly_block` child. -/
def visit_metadata (st : InterpState) : Node → Except RErr ((Metadata × List ParseMsg) × InterpState)
  | .tree .metadata cs => metadata st cs
  | _ => .error .typeError

/-- Dispatch of `self.visit(e)` on a `poly_block` child. -/
def visit_points (st : InterpState) : Node → Except RErr ((List Point × List ParseMsg) × InterpState)
  | .tree .points cs => points st cs
  | _ => .error .typeError

/-- Source: `PolyFileInterpreter.poly_block`: visit the two or three
non-message children in order (optional description header, metadata,
points) and concatenate the message lists in
header-then-metadata-then-points order onto the filtered block-level
messages; any other number of components fails the tuple unpacking. -/
def poly_block (st : InterpState) (children : List Node) :
    Except RErr ((PolyObject × List ParseMsg) × InterpState) := do
  let (elems, msgs) := filter_msgs children
  match elems with
  | [e0, e1, e2] => do
      let ((description, description_msgs), st1) ← visit_description_header st e0
      let ((md, metadata_msgs), st2) ← visit_metadata st1 e1
      let ((pts, point_msgs), st3) ← visit_points st2 e2
      .ok ((⟨some description, md, pts⟩,
            msgs ++ description_msgs ++ metadata_msgs ++ point_msgs), st3)
  | [e1, e2] => do
      let ((md, metadata_msgs), st2) ← visit_metadata st e1
      let ((pts, point_msgs), st3) ← visit_points st2 e2
      .ok ((⟨none, md, pts⟩, msgs ++ metadata_msgs ++ point_msgs), st3)
  | _ => .error .valueError

/-- Source: `PolyFileInterpreter.invalid_block`: a single ERROR built
directly from `tree.children` (reading `.line`/`.column` spans off the
first and last child, which must therefore be raw tokens), returned
WITHOUT the usual `(value, messages)` pair wrapper. -/
def invalid_block (st : InterpState) (children : List Node) :
    Except RErr (ParseMsg × InterpState) := do
  match children.head?, children.getLast? with
  | some c0, some cl => do
      let t0 ← c0.rawToken
      let tl ← cl.rawToken
      .ok (message_from_tokens t0 tl .ERROR "Invalid block of data will be ignored.", st)
  | _, _ => .error .indexError

/-- Source: `PolyFileInterpreter.poly_file`: the body is `pass`, so the
method returns Python `None` for every tree. -/
def poly_file (st : InterpState) (_children : List Node) :
    Except RErr (Option Unit × InterpState) :=
  .ok (none, st)

end PolyFileInterpreter

/-- The dynamic value component of an interpreter result, one
constructor per value-producing rule. -/
inductive IValue where
  | desc (d : DescriptionHeader)
  | name (s : String)
  | dims (rc : Int × Int)
  | meta (m : Metadata)
  | pointV (p : Point)
  | pointsV (ps : List Point)
  | obj (o : PolyObject)
deriving Repr, DecidableEq

/-- The dynamic shape of what `PolyFileInterpreter.visit` returns for a
rule node: a `(possibly-absent value, messages)` pair for the ordinary
rules, a bare `ParseMsg` for `invalid_block`, and Python `None` for
`poly_file`. -/
inductive IResult where
  | pair (value : Option IValue) (msgs : List ParseMsg)
  | single (m : ParseMsg)
  | noneV
deriving Repr, DecidableEq

/-- Whether a visit result has the `(value, messages)` pair shape. -/
def IResult.isPair : IResult → Bool
  | .pair _ _ => true
  | _ => false

/-- The messages component of a pair-shaped visit result (empty
otherwise). -/
def IResult.msgsOf : IResult → List ParseMsg
  | .pair _ msgs => msgs
  | .single m => [m]
  | .noneV => []

namespace PolyFileInterpreter

/-- The `lark` `Interpreter.visit` dispatch: look up the method named
after `tree.data` and call it, wrapping each method's dynamic return
value in `IResult`. -/
def visit (st : InterpState) : Node → Except RErr (IResult × InterpState)
  | .tree .description_header cs =>
      (description_header st cs).map fun ((d, m), s) => (.pair (some (.desc d)) m, s)
  | .tree .name_line cs =>
      (name_line st cs).map fun ((n, m), s) => (.pair (some (.name n)) m, s)
  | .tree .metadata cs =>
      (metadata st cs).map fun ((md, m), s) => (.pair (some (.meta md)) m, s)
  | .tree .dimensions_line cs =>
      (dimensions_line st cs).map fun ((rc, m), s) => (.pair (some (.dims rc)) m, s)
  | .tree .dimensions_valid cs =>
      (dimensions_valid st cs).map fun ((rc, m), s) => (.pair (some (.dims rc)) m, s)
  | .tree .dimensions_missing_column cs =>
      (dimensions_missing_column st cs).map fun ((rc, m), s) => (.pair (some (.dims rc)) m, s)
  | .tree .dimensions_exceeding_columns cs =>
      (dimensions_exceeding_columns st cs).map fun ((rc, m), s) => (.pair (some (.dims rc)) m, s)
  | .tree .point cs =>
      (point st cs).map fun ((p, m), s) => (.pair (p.map .pointV) m, s)
  | .tree .point_invalid cs =>
      (point_invalid st cs).map fun ((p, m), s) => (.pair (p.map .pointV) m, s)
  | .tree .points cs =>
      (points st cs).map fun ((ps, m), s) => (.pair (some (.pointsV ps)) m, s)
  | .tree .poly_block cs =>
      (poly_block st cs).map fun ((o, m), s) => (.pair (some (.obj o)) m, s)
  | .tree .invalid_block cs =>
      (invalid_block st cs).map fun (m, s) => (.single m, s)
  | .tree .poly_file cs =>
      (poly_file st cs).map fun (_, s) => (.noneV, s)
  | _ => .error .typeError

end PolyFileInterpreter

/-! Concrete transformed parse trees used as inputs of the theorems
below.  Token spans follow lark's 1-based convention with end-exclusive
end positions; the trees mirror the shapes asserted by the repository's
own tokenization tests (`tests/io/test_polyfile.py`). -/

/-- Build a token from its span and text. -/
def tok (line column end_line end_column : Int) (text : String) : Token :=
  ⟨line, column, end_line, end_column, text⟩

/-- An `INT` token's `TokenData` node (transformer: `int(str(token))`). -/
def intNode (t : Token) (i : Int) : Node :=
  .tokenData ⟨t, .intD i⟩

/-- A `FLOAT` token's `TokenData` node (transformer: `float(str(token))`). -/
def floatNode (t : Token) (q : Rat) : Node :=
  .tokenData ⟨t, .floatD q⟩

/-- The transformed `poly_block` tree of the round-trip input

    * desc
    myName
    3 3
    1.0 2.0 3.0
    4.0 5.0 6.0
    7.0 8.0 9.0
-/
def roundtripTree : Node :=
  .tree .poly_block
    [ .tree .description_header
        [.commentLine (PolyFileLiteralTransformer.COMMENT (tok 1 1 1 7 "* desc"))],
      .tree .metadata
        [ .tree .name_line [.tokenData (PolyFileLiteralTransformer.NAME (tok 2 1 2 7 "myName"))],
          .tree .dimensions_line
            [.tree .dimensions_valid [intNode (tok 3 1 3 2 "3") 3, intNode (tok 3 3 3 4 "3") 3]] ],
      .tree .points
        [ .tree .point
            [floatNode (tok 4 1 4 4 "1.0") 1, floatNode (tok 4 5 4 8 "2.0") 2,
             floatNode (tok 4 9 4 12 "3.0") 3],
          .tree .point
            [floatNode (tok 5 1 5 4 "4.0") 4, floatNode (tok 5 5 5 8 "5.0") 5,
             floatNode (tok 5 9 5 12 "6.0") 6],
          .tree .point
            [floatNode (tok 6 1 6 4 "7.0") 7, floatNode (tok 6 5 6 8 "8.0") 8,
             floatNode (tok 6 9 6 12 "9.0") 9] ] ]

/-- The `PolyObject` the round-trip block yields with z-values enabled. -/
def roundtripObjZ : PolyObject :=
  ⟨some ⟨" desc"⟩, ⟨"myName", 3, 3⟩,
   [⟨1, 2, some 3, []⟩, ⟨4, 5, some 6, []⟩, ⟨7, 8, some 9, []⟩]⟩

/-- The `PolyObject` the round-trip block yields with z-values disabled. -/
def roundtripObjNoZ : PolyObject :=
  ⟨some ⟨" desc"⟩, ⟨"myName", 3, 3⟩,
   [⟨1, 2, none, [3]⟩, ⟨4, 5, none, [6]⟩, ⟨7, 8, none, [9]⟩]⟩

/-- The messages the round-trip block yields with z-values disabled:
one excess-columns ERROR per point row (each row has 3 values while 2
are expected). -/
def roundtripNoZMsgs : List ParseMsg :=
  [ message_from_tokens (tok 4 1 4 4 "1.0") (tok 4 9 4 12 "3.0") .ERROR
      "Too many columns provided as specified, the created point will contain too much data.",
    message_from_tokens (tok 5 1 5 4 "4.0") (tok 5 9 5 12 "6.0") .ERROR
      "Too many columns provided as specified, the created point will contain too much data.",
    message_from_tokens (tok 6 1 6 4 "7.0") (tok 6 9 6 12 "9.0") .ERROR
      "Too many columns provided as specified, the created point will contain too much data." ]

/-- The untransformed `INVALID_BLOCK` token of the trailing unparseable
block `woo this should be an invalid block\nbecause this should not
exist.\n` (file lines 7-8). -/
def invalidBlockTok : Token :=
  tok 7 1 9 1 "woo this should be an invalid block\nbecause this should not exist.\n"

/-- A transformed `invalid_block` tree. -/
def invalidBlockTree : Node :=
  .tree .invalid_block [.token invalidBlockTok]

/-- A transformed whole-file tree: one well-formed block followed by
one unparseable trailing block. -/
def polyFileTree : Node :=
  .tree .poly_file [roundtripTree, invalidBlockTree]

/-- A transformed `dimensions_line` tree for `   5 23` (leading
whitespace): the literal transformer has rewritten the `WS` token into
a WARNING `ParseMsg`. -/
def wsDimensionsLineChildren : List Node :=
  [ .parseMsg (PolyFileLiteralTransformer.WS (tok 1 1 1 4 "   ")),
    .tree .dimensions_valid [intNode (tok 1 4 1 5 "5") 5, intNode (tok 1 6 1 8 "23") 23] ]




/-! State-preservation lemmas: every visit method leaves the threaded
interpreter state exactly as it received it (the source methods contain
no assignment to the interpreter's fields outside `__init__`). -/

namespace PolyFileInterpreter

theorem description_header_state {st : InterpState} {cs : List Node}
    {r : DescriptionHeader × List ParseMsg} {s : InterpState}
    (h : description_header st cs = .ok (r, s)) : s = st := by
  simp only [description_header, bind, Except.bind] at h
  repeat' split at h
  all_goals try exact Except.noConfusion h
  all_goals (injection h with h2; injection h2 with _ h3; subst h3)
  all_goals rfl

theorem name_line_state {st : InterpState} {cs : List Node}
    {r : String × List ParseMsg} {s : InterpState}
    (h : name_line st cs = .ok (r, s)) : s = st := by
  simp only [name_line, bind, Except.bind] at h
  repeat' split at h
  all_goals try exact Except.noConfusion h
  all_goals (injection h with h2; injection h2 with _ h3; subst h3)
  all_goals rfl

theorem dimensions_valid_state {st : InterpState} {cs : List Node}
    {r : (Int × Int) × List ParseMsg} {s : InterpState}
    (h : dimensions_valid st cs = .ok (r, s)) : s = st := by
  simp only [dimensions_valid, bind, Except.bind] at h
  repeat' split at h
  all_goals try exact Except.noConfusion h
  all_goals (injection h with h2; injection h2 with _ h3; subst h3)
  all_goals rfl

theorem dimensions_missing_column_state {st : InterpState} {cs : List Node}
    {r : (Int × Int) × List ParseMsg} {s : InterpState}
    (h : dimensions_missing_column st cs = .ok (r, s)) : s = st := by
  simp only [dimensions_missing_column, bind, Except.bind] at h
  repeat' split at h
  all_goals try exact Except.noConfusion h
  all_goals (injection h with h2; injection h2 with _ h3; subst h3)
  all_goals rfl

theorem visit_dimensions_first_child_state {st : InterpState} {n : Node}
    {r : (Int × Int) × List ParseMsg} {s : InterpState}
    (h : visit_dimensions_first_child st n = .ok (r, s)) : s = st := by
  unfold visit_dimensions_first_child at h
  split at h
  · exact dimensions_valid_state h
  · exact dimensions_missing_column_state h
  · exact Except.noConfusion h

theorem dimensions_exceeding_columns_state {st : InterpState} {cs : List Node}
    {r : (Int × Int) × List ParseMsg} {s : InterpState}
    (h : dimensions_exceeding_columns st cs = .ok (r, s)) : s = st := by
  simp only [dimensions_exceeding_columns, bind, Except.bind] at h
  repeat' split at h
  all_goals try exact Except.noConfusion h
  all_goals (injection h with h2; injection h2 with _ h3; subst h3)
  all_goals first
    | rfl
    | exact visit_dimensions_first_child_state (by assumption)

theorem visit_dimensions_state {st : InterpState} {n : Node}
    {r : (Int × Int) × List ParseMsg} {s : InterpState}
    (h : visit_dimensions st n = .ok (r, s)) : s = st := by
  unfold visit_dimensions at h
  split at h
  · exact dimensions_valid_state h
  · exact dimensions_missing_column_state h
  · exact dimensions_exceeding_columns_state h
  · exact Except.noConfusion h

theorem dimensions_line_state {st : InterpState} {cs : List Node}
    {r : (Int × Int) × List ParseMsg} {s : InterpState}
    (h : dimensions_line st cs = .ok (r, s)) : s = st := by
  simp only [dimensions_line, bind, Except.bind] at h
  repeat' split at h
  all_goals try exact Except.noConfusion h
  all_goals (injection h with h2; injection h2 with _ h3; subst h3)
  all_goals first
    | rfl
    | exact visit_dimensions_state (by assumption)

theorem point_state {st : InterpState} {cs : List Node}
    {r : Option Point × List ParseMsg} {s : InterpState}
    (h : point st cs = .ok (r, s)) : s = st := by
  simp only [point, bind, Except.bind, pure, Except.pure] at h
  repeat' split at h
  all_goals try exact Except.noConfusion h
  all_goals (injection h with h2; injection h2 with _ h3; subst h3)
  all_goals rfl

theorem point_invalid_state {st : InterpState} {cs : List Node}
    {r : Option Point × List ParseMsg} {s : InterpState}
    (h : point_invalid st cs = .ok (r, s)) : s = st := by
  simp only [point_invalid, bind, Except.bind] at h
  repeat' split at h
  all_goals try exact Except.noConfusion h
  all_goals (injection h with h2; injection h2 with _ h3; subst h3)
  all_goals rfl

theorem visit_point_line_state {st : InterpState} {n : Node}
    {r : Option Point × List ParseMsg} {s : InterpState}
    (h : visit_point_line st n = .ok (r, s)) : s = st := by
  unfold visit_point_line at h
  split at h
  · exact point_state h
  · exact point_invalid_state h
  · exact Except.noConfusion h

theorem points_loop_state {st : InterpState} {cs : List Node}
    {r : List Point × List ParseMsg} {s : InterpState}
    (h : points_loop st cs = .ok (r, s)) : s = st := by
  induction cs generalizing st r s with
  | nil =>
      simp only [points_loop] at h
      injection h with h2
      injection h2 with _ h3
      exact h3.symm
  | cons e rest ih =>
      simp only [points_loop, bind, Except.bind] at h
      repeat' split at h
      all_goals try exact Except.noConfusion h
      all_goals (injection h with h2; injection h2 with _ h3; subst h3)
      all_goals exact (ih (by assumption)).trans (visit_point_line_state (by assumption))

theorem points_state {st : InterpState} {cs : List Node}
    {r : List Point × List ParseMsg} {s : InterpState}
    (h : points st cs = .ok (r, s)) : s = st := by
  simp only [points, bind, Except.bind] at h
  repeat' split at h
  all_goals try exact Except.noConfusion h
  all_goals (injection h with h2; injection h2 with _ h3; subst h3)
  all_goals exact points_loop_state (by assumption)

theorem visit_name_line_state {st : InterpState} {n : Node}
    {r : String × List ParseMsg} {s : InterpState}
    (h : visit_name_line st n = .ok (r, s)) : s = st := by
  unfold visit_name_line at h
  split at h
  · exact name_line_state h
  · exact Except.noConfusion h

theorem visit_dimensions_line_state {st : InterpState} {n : Node}
    {r : (Int × Int) × List ParseMsg} {s : InterpState}
    (h : visit_dimensions_line st n = .ok (r, s)) : s = st := by
  unfold visit_dimensions_line at h
  split at h
  · exact dimensions_line_state h
  · exact Except.noConfusion h

theorem metadata_state {st : InterpState} {cs : List Node}
    {r : Metadata × List ParseMsg} {s : InterpState}
    (h : metadata st cs = .ok (r, s)) : s = st := by
  simp only [metadata, bind, Except.bind] at h
  repeat' split at h
  all_goals try exact Except.noConfusion h
  all_goals (injection h with h2; injection h2 with _ h3; subst h3)
  all_goals exact
    (visit_dimensions_line_state (by assumption)).trans (visit_name_line_state (by assumption))

theorem visit_description_header_state {st : InterpState} {n : Node}
    {r : DescriptionHeader × List ParseMsg} {s : InterpState}
    (h : visit_description_header st n = .ok (r, s)) : s = st := by
  unfold visit_description_header at h
  split at h
  · exact description_header_state h
  · exact Except.noConfusion h

theorem visit_metadata_state {st : InterpState} {n : Node}
    {r : Metadata × List ParseMsg} {s : InterpState}
    (h : visit_metadata st n = .ok (r, s)) : s = st := by
  unfold visit_metadata at h
  split at h
  · exact metadata_state h
  · exact Except.noConfusion h

theorem visit_points_state {st : InterpState} {n : Node}
    {r : List Point × List ParseMsg} {s : InterpState}
    (h : visit_points st n = .ok (r, s)) : s = st := by
  unfold visit_points at h
  split at h
  · exact points_state h
  · exact Except.noConfusion h

theorem poly_block_state {st : InterpState} {cs : List Node}
    {r : PolyObject × List ParseMsg} {s : InterpState}
    (h : poly_block st cs = .ok (r, s)) : s = st := by
  simp only [poly_block, bind, Except.bind] at h
  repeat' split at h
  all_goals try exact Except.noConfusion h
  all_goals (injection h with h2; injection h2 with _ h3; subst h3)
  all_goals first
    | exact (visit_points_state (by assumption)).trans
        ((visit_metadata_state (by assumption)).trans
          (visit_description_header_state (by assumption)))
    | exact (visit_points_state (by assumption)).trans (visit_metadata_state (by assumption))

theorem invalid_block_state {st : InterpState} {cs : List Node}
    {r : ParseMsg} {s : InterpState}
    (h : invalid_block st cs = .ok (r, s)) : s = st := by
  simp only [invalid_block, bind, Except.bind] at h
  repeat' split at h
  all_goals try exact Except.noConfusion h
  all_goals (injection h with h2; injection h2 with _ h3; exact h3.symm)

theorem visit_state {st : InterpState} {n : Node}
    {r : IResult} {s : InterpState}
    (h : visit st n = .ok (r, s)) : s = st := by
  unfold visit at h
  repeat' split at h
  all_goals try exact Except.noConfusion h
  all_goals simp only [Except.map, poly_file] at h
  all_goals repeat' split at h
  all_goals try exact Except.noConfusion h
  all_goals (injection h with h2; injection h2 with _ h3; subst h3)
  all_goals first
    | rfl
    | exact description_header_state (by assumption)
    | exact name_line_state (by assumption)
    | exact metadata_state (by assumption)
    | exact dimensions_line_state (by assumption)
    | exact dimensions_valid_state (by assumption)
    | exact dimensions_missing_column_state (by assumption)
    | exact dimensions_exceeding_columns_state (by assumption)
    | exact point_state (by assumption)
    | exact point_invalid_state (by assumption)
    | exact points_state (by assumption)
    | exact poly_block_state (by assumption)
    | exact invalid_block_state (by assumption)

end PolyFileInterpreter

open PolyFileInterpreter

/-! Claim theorems. -/

/-- C1: the whole-file entry point is a stub: the body of
`PolyFileInterpreter.poly_file` is `pass`, so interpreting a whole-file
tree — here one well-formed block followed by an unparseable trailing
block — returns Python `None`: no ordered sequence of
`(PolyObject-or-absent, diagnostics)` pairs, no successful `PolyObject`
and no ERROR diagnostic for the trailing block. -/
theorem poly_file_visit_returns_none :
    visit (init false) polyFileTree = .ok (.noneV, init false) := rfl

/-- C2 counterexample: interpreting the round-trip block with z-values
disabled is NOT diagnostic-free (the claim asserts no diagnostics): the
messages list of the result is not empty. -/
theorem roundtrip_z_disabled_has_diagnostics :
    ¬ ((visit (init false) roundtripTree).map (fun rs => rs.1.msgsOf.length) = .ok 0) := by
  decide

/-- C2 (amended): interpreting the round-trip block with z-values
enabled yields one `PolyObject` with description content `" desc"`,
metadata `(myName, 3, 3)` and points `(1,2,3)`, `(4,5,6)`, `(7,8,9)`
with empty extra data, and zero diagnostics; with z-values disabled it
yields `z = none` and `data = [3.0]`, `[6.0]`, `[9.0]` respectively,
with exactly one excess-columns ERROR per point row (each row has three
values while two are expected), not zero diagnostics. -/
theorem roundtrip_block_interpretation :
    visit (init true) roundtripTree = .ok (.pair (some (.obj roundtripObjZ)) [], init true)
    ∧ visit (init false) roundtripTree =
        .ok (.pair (some (.obj roundtripObjNoZ)) roundtripNoZMsgs, init false) :=
  ⟨rfl, rfl⟩

/-- The transformed children of the dimension line `5 12 18 20`: a
valid two-integer prefix followed by two excess integers. -/
def excessDimsChildren : List Node :=
  [ .tree .dimensions_valid [intNode (tok 1 1 1 2 "5") 5, intNode (tok 1 3 1 5 "12") 12],
    intNode (tok 1 6 1 8 "18") 18,
    intNode (tok 1 9 1 11 "20") 20 ]

/-- C3 counterexample: a dimension line with two excess trailing
integers does NOT yield two WARNING diagnostics (the claim asserts one
WARNING per excess integer): only one WARNING is emitted. -/
theorem excess_columns_single_warning_cex :
    ¬ ((dimensions_exceeding_columns (init false) excessDimsChildren).map
        (fun rs => (rs.1.2.filter (fun m => m.level == .WARNING)).length) = .ok 2) := by
  decide

/-- C3 (amended): a dimension line with more than two integers yields
the first two as `(n_rows, n_columns)` and exactly ONE WARNING in
total — referencing the first excess integer — regardless of how many
excess integers follow. -/
theorem excess_columns_one_warning (st : InterpState) (c0 : Node) (e0 : TokenData)
    (rest : List Node) (rc : Int × Int) (vmsgs : List ParseMsg) (st1 : InterpState)
    (h : visit_dimensions_first_child st c0 = .ok ((rc, vmsgs), st1)) :
    dimensions_exceeding_columns st (c0 :: .tokenData e0 :: rest) =
      .ok ((rc, vmsgs ++ [message_from_tokens e0.token e0.token .WARNING
            "Too many columns specified, the excess columns will be ignored."]), st1) := by
  simp only [dimensions_exceeding_columns, bind, Except.bind, h, Node.tokenAttr]

/-- Witness for the amended C3 theorem at the concrete line `5 12 18 20`. -/
theorem excess_columns_one_warning_witness :
    dimensions_exceeding_columns (init false) excessDimsChildren =
      .ok (((5, 12), [message_from_tokens (tok 1 6 1 8 "18") (tok 1 6 1 8 "18") .WARNING
            "Too many columns specified, the excess columns will be ignored."]), init false) :=
  excess_columns_one_warning (init false)
    (.tree .dimensions_valid [intNode (tok 1 1 1 2 "5") 5, intNode (tok 1 3 1 5 "12") 12])
    ⟨tok 1 6 1 8 "18", .intD 18⟩ [intNode (tok 1 9 1 11 "20") 20] (5, 12) [] (init false) rfl

/-- C8: a dimension line with a single integer `R` yields `(R, -1)`
(the sentinel for an undetermined column count) together with exactly
one ERROR diagnostic, both at the `dimensions_missing_column` rule and
through the enclosing `dimensions_line` rule. -/
theorem dimensions_missing_column_sentinel (st : InterpState) (t : Token) (R : Int) :
    dimensions_missing_column st [intNode t R] =
      .ok (((R, -1), [message_from_tokens t t .ERROR
            "Only one dimension is specified, the number of columns will not be validated"]), st)
    ∧ dimensions_line st [.tree .dimensions_missing_column [intNode t R]] =
      .ok (((R, -1), [message_from_tokens t t .ERROR
            "Only one dimension is specified, the number of columns will not be validated"]), st) :=
  ⟨rfl, rfl⟩

/-- C9: the code CRASHES instead of being total: interpreting a
`dimensions_line` whose first child is the WARNING `ParseMsg` that the
literal transformer substituted for the leading-whitespace token raises
`AttributeError` (the method reads `.token` on the `ParseMsg`), so no
nested dimensions result and no appended leading-whitespace WARNING is
ever produced. -/
theorem dimensions_line_leading_ws_crash :
    dimensions_line (init false) wsDimensionsLineChildren = .error .attributeError := rfl


namespace PolyFileInterpreter

theorem invalid_block_level {st : InterpState} {cs : List Node}
    {m : ParseMsg} {s : InterpState}
    (h : invalid_block st cs = .ok (m, s)) : m.level = .ERROR := by
  simp only [invalid_block, bind, Except.bind] at h
  repeat' split at h
  all_goals try exact Except.noConfusion h
  all_goals (injection h with h2; injection h2 with h3 _; subst h3; rfl)

end PolyFileInterpreter

/-- The last element of a nonempty list of raw-token nodes. -/
theorem token_list_getLast (t0 : Token) (ts : List Token) :
    (Node.token t0 :: ts.map Node.token).getLast? = some (.token (ts.getLast?.getD t0)) := by
  rw [List.getLast?_cons, List.getLast?_map]
  cases ts.getLast? <;> rfl

/-- C5 counterexample: interpreting an `invalid_block` node does NOT
return a `(value, diagnostics)` pair (the claim asserts every
interpretation step does): the result is a bare `ParseMsg`. -/
theorem invalid_block_not_a_pair_cex :
    (visit (init false) invalidBlockTree).map (fun rs => rs.1.isPair) = .ok false := rfl

/-- C5 (amended): every interpretation step EXCEPT `invalid_block` and
`poly_file` returns a `(possibly-absent value, diagnostics)` pair;
`invalid_block` instead returns a single bare ERROR `ParseMsg` — not
wrapped in a pair — whose span runs from the first to the last matched
token (here for children that are raw tokens, the only shape the code
supports); `poly_file` returns nothing. -/
theorem invalid_block_single_error (st : InterpState) (n : Node) (r : IResult)
    (s : InterpState) (t0 : Token) (ts : List Token)
    (h : visit st n = .ok (r, s)) :
    (n.ruleOf = some .invalid_block → ∃ m, r = .single m ∧ m.level = .ERROR)
    ∧ (n.ruleOf = some .poly_file → r = .noneV)
    ∧ (∀ R : Rule, n.ruleOf = some R → R ≠ .invalid_block → R ≠ .poly_file →
        r.isPair = true)
    ∧ visit st (.tree .invalid_block (.token t0 :: ts.map Node.token)) =
        .ok (.single (message_from_tokens t0 (ts.getLast?.getD t0) .ERROR
          "Invalid block of data will be ignored."), st) := by
  refine ⟨?_, ?_, ?_, ?_⟩
  · intro hr
    obtain ⟨rule, cs, rfl⟩ : ∃ rule cs, n = .tree rule cs := by
      cases n <;> first | exact ⟨_, _, rfl⟩ | simp [Node.ruleOf] at hr
    simp only [Node.ruleOf, Option.some.injEq] at hr
    subst hr
    simp only [visit, Except.map] at h
    split at h
    · exact Except.noConfusion h
    next v heq =>
      obtain ⟨m, s1⟩ := v
      injection h with h2
      injection h2 with h3 _
      exact ⟨m, h3.symm, invalid_block_level heq⟩
  · intro hr
    obtain ⟨rule, cs, rfl⟩ : ∃ rule cs, n = .tree rule cs := by
      cases n <;> first | exact ⟨_, _, rfl⟩ | simp [Node.ruleOf] at hr
    simp only [Node.ruleOf, Option.some.injEq] at hr
    subst hr
    simp only [visit, poly_file, Except.map] at h
    injection h with h2
    injection h2 with h3 _
    exact h3.symm
  · intro R hr hni hnp
    obtain ⟨rule, cs, rfl⟩ : ∃ rule cs, n = .tree rule cs := by
      cases n <;> first | exact ⟨_, _, rfl⟩ | simp [Node.ruleOf] at hr
    simp only [Node.ruleOf, Option.some.injEq] at hr
    subst hr
    cases rule <;>
      first
        | exact absurd rfl hni
        | exact absurd rfl hnp
        | (simp only [visit, Except.map] at h
           split at h
           · exact Except.noConfusion h
           · (injection h with h2; injection h2 with h3 _; subst h3; rfl))
  · simp only [visit, invalid_block, List.head?, token_list_getLast, Node.rawToken,
      bind, Except.bind, Except.map]

/-- Witness for the amended C5 theorem: instantiated at the concrete
trailing invalid block (a single raw `INVALID_BLOCK` token). -/
theorem invalid_block_single_error_witness :
    ((Node.ruleOf invalidBlockTree = some .invalid_block →
        ∃ m, IResult.single (message_from_tokens invalidBlockTok invalidBlockTok .ERROR
          "Invalid block of data will be ignored.") = .single m ∧ m.level = .ERROR)
      ∧ (Node.ruleOf invalidBlockTree = some .poly_file →
          IResult.single (message_from_tokens invalidBlockTok invalidBlockTok .ERROR
            "Invalid block of data will be ignored.") = .noneV)
      ∧ (∀ R : Rule, Node.ruleOf invalidBlockTree = some R → R ≠ .invalid_block →
          R ≠ .poly_file →
          (IResult.single (message_from_tokens invalidBlockTok invalidBlockTok .ERROR
            "Invalid block of data will be ignored.")).isPair = true)
      ∧ visit (init false) (.tree .invalid_block [Node.token invalidBlockTok]) =
          .ok (.single (message_from_tokens invalidBlockTok
            (([] : List Token).getLast?.getD invalidBlockTok) .ERROR
            "Invalid block of data will be ignored."), init false)) :=
  invalid_block_single_error (init false) invalidBlockTree _ (init false)
    invalidBlockTok [] rfl


/-- A point row: the transformed `FLOAT` token children of a `point` or
`point_invalid` node, given as (token, value) pairs. -/
def floatRow (tvs : List (Token × Rat)) : List Node :=
  tvs.map fun tv => floatNode tv.1 tv.2

theorem floatRow_mapM (tvs : List (Token × Rat)) :
    (floatRow tvs).mapM Node.dataFloat = .ok (tvs.map Prod.snd) := by
  induction tvs with
  | nil => rfl
  | cons a l ih =>
      show (floatNode a.1 a.2 :: floatRow l).mapM Node.dataFloat = _
      rw [List.mapM_cons, ih]
      rfl

/-- C6: a point row with at least two values but fewer values than the
currently-expected column count still constructs a `Point` from the
given values (in particular `x` and `y` are the first two values) and
emits exactly one ERROR; a row with exactly one value produces no
`Point` and exactly one ERROR. -/
theorem point_row_arity (st : InterpState) (ta tb : Token) (qa qb : Rat)
    (rest : List (Token × Rat)) (t0 : Token) (q0 : Rat)
    (hlt : ((((ta, qa) :: (tb, qb) :: rest).length : Nat) : Int) < st.expected_n_columns) :
    (∃ p msgs, point st (floatRow ((ta, qa) :: (tb, qb) :: rest)) = .ok ((some p, msgs), st)
        ∧ p.x = qa ∧ p.y = qb ∧ msgs.length = 1 ∧ ∀ m ∈ msgs, m.level = .ERROR)
    ∧ (∃ msgs, point_invalid st (floatRow [(t0, q0)]) = .ok ((none, msgs), st)
        ∧ msgs.length = 1 ∧ ∀ m ∈ msgs, m.level = .ERROR) := by
  constructor
  · have hc : (((((ta, qa) :: (tb, qb) :: rest).map Prod.snd).length : Nat) : Int) <
        st.expected_n_columns := by
      simpa using hlt
    have hlast : (floatRow ((ta, qa) :: (tb, qb) :: rest)).getLast? =
        some (floatNode (rest.getLast?.getD (tb, qb)).1 (rest.getLast?.getD (tb, qb)).2) := by
      simp only [floatRow, List.map_cons, List.getLast?_cons, List.getLast?_map]
      cases rest.getLast? <;> rfl
    unfold point
    rw [floatRow_mapM]
    simp only [bind, Except.bind]
    rw [if_pos hc]
    rw [hlast]
    simp only [floatRow, List.map_cons, List.head?, floatNode, Node.tokenAttr,
      pure, Except.pure]
    exact ⟨_, _, rfl, rfl, rfl, rfl, by
      intro m hm
      simp only [List.mem_singleton] at hm
      subst hm
      rfl⟩
  · exact ⟨_, rfl, rfl, by
      intro m hm
      simp only [List.mem_singleton] at hm
      subst hm
      rfl⟩

/-- Witness for C6 at a concrete three-value row with five expected
columns and a concrete one-value row. -/
theorem point_row_arity_witness :
    ((∃ p msgs,
        point (set_expected_n_columns (init true) 5)
            (floatRow [(tok 1 1 1 4 "1.0", 1), (tok 1 5 1 8 "2.0", 2), (tok 1 9 1 12 "3.0", 3)]) =
          .ok ((some p, msgs), set_expected_n_columns (init true) 5)
        ∧ p.x = 1 ∧ p.y = 2 ∧ msgs.length = 1 ∧ ∀ m ∈ msgs, m.level = .ERROR)
      ∧ (∃ msgs,
          point_invalid (set_expected_n_columns (init true) 5)
              (floatRow [(tok 2 1 2 4 "4.0", 4)]) =
            .ok ((none, msgs), set_expected_n_columns (init true) 5)
          ∧ msgs.length = 1 ∧ ∀ m ∈ msgs, m.level = .ERROR)) :=
  point_row_arity (set_expected_n_columns (init true) 5)
    (tok 1 1 1 4 "1.0") (tok 1 5 1 8 "2.0") 1 2 [(tok 1 9 1 12 "3.0", 3)]
    (tok 2 1 2 4 "4.0") 4 (by decide)

/-- The transformed `metadata` tree of a name line followed by the
dimension line `R C` with no leading whitespace. -/
def metadataChildren (nameTok ta tb : Token) (nm : String) (R C : Int) : List Node :=
  [ .tree .name_line [.tokenData ⟨nameTok, .strD nm⟩],
    .tree .dimensions_line [.tree .dimensions_valid [intNode ta R, intNode tb C]] ]

theorem dimensions_valid_spec (st : InterpState) (ta tb : Token) (R C : Int) :
    dimensions_valid st [intNode ta R, intNode tb C] =
      .ok (((R, C),
        if C < st.min_n_columns then
          [message_from_tokens tb tb .ERROR
            "The number of specified columns is smaller than the minimum expected number."]
        else []), st) := by
  unfold dimensions_valid
  simp only [intNode, Node.dataInt, Node.dataAttr, bind, Except.bind]
  split <;> rfl

theorem dimensions_line_single_spec (st : InterpState) (inner : Node)
    (rc : Int × Int) (msgs : List ParseMsg) (st1 : InterpState)
    (h : visit_dimensions st inner = .ok ((rc, msgs), st1)) :
    dimensions_line st [inner] = .ok ((rc, msgs), st1) := by
  unfold dimensions_line
  rw [show ([inner].getLast?) = some inner from rfl]
  dsimp only []
  rw [h]
  rfl

/-- C7: for a dimension line of exactly two integers `R C` without
leading whitespace, interpreting the enclosing metadata yields
`Metadata(name, R, C)`; with `C` at least the minimum column count
there are zero diagnostics, and with `C` below the minimum exactly one
ERROR diagnostic is produced while `n_columns` still reports the
declared too-small value `C`. -/
theorem metadata_dimensions_valid (st : InterpState) (nameTok ta tb : Token)
    (nm : String) (R C : Int) :
    (st.min_n_columns ≤ C →
      metadata st (metadataChildren nameTok ta tb nm R C) = .ok ((⟨nm, R, C⟩, []), st))
    ∧ (C < st.min_n_columns →
      metadata st (metadataChildren nameTok ta tb nm R C) =
        .ok ((⟨nm, R, C⟩, [message_from_tokens tb tb .ERROR
          "The number of specified columns is smaller than the minimum expected number."]), st)) := by
  have hfm : filter_msgs (metadataChildren nameTok ta tb nm R C) =
      ([.tree .name_line [.tokenData ⟨nameTok, .strD nm⟩],
        .tree .dimensions_line [.tree .dimensions_valid [intNode ta R, intNode tb C]]], []) := rfl
  have hn : visit_name_line st (.tree .name_line [.tokenData ⟨nameTok, .strD nm⟩]) =
      .ok ((nm, []), st) := rfl
  constructor
  · intro hge
    have h1 : visit_dimensions st (.tree .dimensions_valid [intNode ta R, intNode tb C]) =
        .ok (((R, C), []), st) := by
      show dimensions_valid st [intNode ta R, intNode tb C] = _
      rw [dimensions_valid_spec, if_neg (not_lt.2 hge)]
    have h2 : visit_dimensions_line st
        (.tree .dimensions_line [.tree .dimensions_valid [intNode ta R, intNode tb C]]) =
        .ok (((R, C), []), st) := by
      show dimensions_line st [.tree .dimensions_valid [intNode ta R, intNode tb C]] = _
      exact dimensions_line_single_spec st _ (R, C) [] st h1
    simp only [metadata, hfm, hn, h2, bind, Except.bind, List.nil_append, List.append_nil]
  · intro hlt
    have h1 : visit_dimensions st (.tree .dimensions_valid [intNode ta R, intNode tb C]) =
        .ok (((R, C), [message_from_tokens tb tb .ERROR
          "The number of specified columns is smaller than the minimum expected number."]), st) := by
      show dimensions_valid st [intNode ta R, intNode tb C] = _
      rw [dimensions_valid_spec, if_pos hlt]
    have h2 : visit_dimensions_line st
        (.tree .dimensions_line [.tree .dimensions_valid [intNode ta R, intNode tb C]]) =
        .ok (((R, C), [message_from_tokens tb tb .ERROR
          "The number of specified columns is smaller than the minimum expected number."]), st) := by
      show dimensions_line st [.tree .dimensions_valid [intNode ta R, intNode tb C]] = _
      exact dimensions_line_single_spec st _ (R, C) _ st h1
    simp only [metadata, hfm, hn, h2, bind, Except.bind, List.nil_append, List.append_nil]

/-- Witness for C7 at the concrete lines `3 3` (valid for a minimum of
3) and `3 2` (below a minimum of 3). -/
theorem metadata_dimensions_valid_witness :
    (metadata (init true)
        (metadataChildren (tok 2 1 2 7 "myName") (tok 3 1 3 2 "3") (tok 3 3 3 4 "3") "myName" 3 3) =
      .ok ((⟨"myName", 3, 3⟩, []), init true))
    ∧ (metadata (init true)
        (metadataChildren (tok 2 1 2 7 "myName") (tok 3 1 3 2 "3") (tok 3 3 3 4 "2") "myName" 3 2) =
      .ok ((⟨"myName", 3, 2⟩, [message_from_tokens (tok 3 3 3 4 "2") (tok 3 3 3 4 "2") .ERROR
        "The number of specified columns is smaller than the minimum expected number."]), init true)) :=
  ⟨(metadata_dimensions_valid (init true) (tok 2 1 2 7 "myName") (tok 3 1 3 2 "3")
      (tok 3 3 3 4 "3") "myName" 3 3).1 (by decide),
   (metadata_dimensions_valid (init true) (tok 2 1 2 7 "myName") (tok 3 1 3 2 "3")
      (tok 3 3 3 4 "2") "myName" 3 2).2 (by decide)⟩


/-- A node is not a `ParseMsg` exactly when `parseMsgOf` yields none. -/
theorem Node.parseMsgOf_eq_none {n : Node} (h : n.isParseMsg = false) :
    n.parseMsgOf = none := by
  cases n <;> simp_all [Node.isParseMsg, Node.parseMsgOf]

/-- The blank-line WARNING the literal transformer substitutes for an
`EMPTY_LINES` token between two point rows. -/
def blankLineWarn : ParseMsg :=
  PolyFileLiteralTransformer.EMPTY_LINES (tok 2 1 4 1 "\n\n")

/-- A one-value (invalid) point row on line 1. -/
def pointRow1 : Node := .tree .point_invalid [floatNode (tok 1 4 1 7 "1.0") 1]

/-- A one-value (invalid) point row on line 4. -/
def pointRow2 : Node := .tree .point_invalid [floatNode (tok 4 4 4 7 "2.0") 2]

/-- The ERROR diagnostic of the first invalid row. -/
def row1Err : ParseMsg :=
  message_from_tokens (tok 1 4 1 7 "1.0") (tok 1 4 1 7 "1.0") .ERROR
    "No point can be constructed from only a single value, row will be skipped"

/-- The ERROR diagnostic of the second invalid row. -/
def row2Err : ParseMsg :=
  message_from_tokens (tok 4 4 4 7 "2.0") (tok 4 4 4 7 "2.0") .ERROR
    "No point can be constructed from only a single value, row will be skipped"

/-- C4 counterexample: in a points block whose blank-line WARNING sits
between two point rows, the diagnostics are NOT emitted in document
order (row-1 diagnostics, blank-line warning, row-2 diagnostics), as
the claim asserts. -/
theorem points_diag_order_cex :
    ¬ (points (init false) [pointRow1, .parseMsg blankLineWarn, pointRow2] =
        .ok (([], [row1Err, blankLineWarn, row2Err]), init false)) := by
  decide

/-- C4 (amended): at each interior node, the diagnostics that the
literal transformer placed among the node's direct children (blank-line
and whitespace warnings) are collected first, in left-to-right order,
and only then are the child subtrees' diagnostics appended
left-to-right; so in a points block a blank-line warning between two
rows precedes both rows' diagnostics, and in a metadata node a
blank-line warning after the name line precedes the name-line
diagnostics. -/
theorem transformer_msgs_first (st : InterpState) (a b n0 d0 : Node) (w w2 : ParseMsg)
    (pa pb : Option Point) (ma mb : List ParseMsg) (st1 st2 : InterpState)
    (nm : String) (nmsgs : List ParseMsg) (rc : Int × Int) (dmsgs : List ParseMsg)
    (st3 st4 : InterpState)
    (ha : visit_point_line st a = .ok ((pa, ma), st1))
    (hb : visit_point_line st1 b = .ok ((pb, mb), st2))
    (hA : a.isParseMsg = false) (hB : b.isParseMsg = false)
    (hn : visit_name_line st n0 = .ok ((nm, nmsgs), st3))
    (hd : visit_dimensions_line st3 d0 = .ok ((rc, dmsgs), st4))
    (hN : n0.isParseMsg = false) (hD : d0.isParseMsg = false) :
    points st [a, .parseMsg w, b] = .ok ((pa.toList ++ pb.toList, w :: (ma ++ mb)), st2)
    ∧ metadata st [n0, .parseMsg w2, d0] =
        .ok ((⟨nm, rc.1, rc.2⟩, w2 :: (nmsgs ++ dmsgs)), st4) := by
  constructor
  · have hfm : filter_msgs [a, .parseMsg w, b] = ([a, b], [w]) := by
      simp [filter_msgs, List.filter_cons, List.filterMap_cons, hA, hB,
        Node.parseMsgOf_eq_none hA, Node.parseMsgOf_eq_none hB,
        show Node.isParseMsg (.parseMsg w) = true from rfl,
        show Node.parseMsgOf (.parseMsg w) = some w from rfl]
    have hloop : points_loop st [a, b] = .ok ((pa.toList ++ pb.toList, ma ++ mb), st2) := by
      simp only [points_loop, ha, hb, bind, Except.bind, List.append_nil]
    simp only [points, hfm, hloop, bind, Except.bind, List.singleton_append]
  · have hfm2 : filter_msgs [n0, .parseMsg w2, d0] = ([n0, d0], [w2]) := by
      simp [filter_msgs, List.filter_cons, List.filterMap_cons, hN, hD,
        Node.parseMsgOf_eq_none hN, Node.parseMsgOf_eq_none hD,
        show Node.isParseMsg (.parseMsg w2) = true from rfl,
        show Node.parseMsgOf (.parseMsg w2) = some w2 from rfl]
    simp only [metadata, hfm2, hn, hd, bind, Except.bind, List.singleton_append,
      List.cons_append, List.nil_append]

/-- The name line used by the C4 witness. -/
def c4NameLine : Node := .tree .name_line [.tokenData ⟨tok 5 1 5 7 "myName", .strD "myName"⟩]

/-- The dimension line `3 3` used by the C4 witness. -/
def c4DimLine : Node :=
  .tree .dimensions_line [.tree .dimensions_valid [intNode (tok 6 1 6 2 "3") 3, intNode (tok 6 3 6 4 "3") 3]]

/-- Witness for the amended C4 theorem at concrete rows, a concrete
blank-line warning and a concrete metadata pair. -/
theorem transformer_msgs_first_witness :
    (points (init false) [pointRow1, .parseMsg blankLineWarn, pointRow2] =
        .ok (((none : Option Point).toList ++ (none : Option Point).toList,
          blankLineWarn :: ([row1Err] ++ [row2Err])), init false))
    ∧ (metadata (init false) [c4NameLine, .parseMsg blankLineWarn, c4DimLine] =
        .ok ((⟨"myName", (3 : Int), (3 : Int)⟩, blankLineWarn :: ([] ++ [])), init false)) :=
  transformer_msgs_first (init false) pointRow1 pointRow2 c4NameLine c4DimLine
    blankLineWarn blankLineWarn none none [row1Err] [row2Err] (init false) (init false)
    "myName" [] (3, 3) [] (init false) (init false)
    rfl rfl rfl rfl rfl rfl rfl rfl

/-- C10: no visit method assigns to the interpreter's fields — in the
embedding the threaded state returned by `visit` always equals the
state passed in — so interpreting a tree leaves the interpreter exactly
as constructed, and any further visit from the returned state (in
particular re-visiting the same tree with the same instance) yields
exactly the same result as from the freshly constructed state. -/
theorem interpreter_state_unchanged (st : InterpState) (n m : Node)
    (r : IResult) (s : InterpState)
    (h : visit st n = .ok (r, s)) :
    s = st ∧ visit s m = visit st m := by
  have hs := visit_state h
  exact ⟨hs, by rw [hs]⟩

/-- Witness for C10: interpreting the round-trip block leaves the
z-enabled interpreter state unchanged. -/
theorem interpreter_state_unchanged_witness :
    (init true) = (init true)
    ∧ visit (init true) invalidBlockTree = visit (init true) invalidBlockTree :=
  interpreter_state_unchanged (init true) roundtripTree invalidBlockTree
    (.pair (some (.obj roundtripObjZ)) []) (init true) rfl

end PlainModelInspector
